import Mathlib

/-
Verification of the WebSocket <-> PTY bridge in rust-terminal
(src/server/src/main.rs), as a shallow embedding.

Bytes are modelled as `Nat` (each value < 256 in the real system; none of
the verified properties depend on that bound).  Byte strings are
`List Nat`.  External libraries (the UTF-8 validator and the serde JSON
decoders) are modelled as function parameters: a run of the real program
corresponds to instantiating those parameters with the library's actual
behaviour on the bytes in question.
-/

/-- A binary frame as built by the sender task (main.rs:397-399, 413-415,
424-426): the opcode byte 0x30 followed by the buffered bytes. -/
def mkFrame (buf : List Nat) : List Nat := 0x30 :: buf

/-- Boolean test that `needle` is a leading segment of `hay`. -/
def bytesStartWith : List Nat → List Nat → Bool
  | [], _ => true
  | _ :: _, [] => false
  | a :: as, b :: bs => a == b && bytesStartWith as bs

/-- First index at which `needle` occurs in `hay`, as in Rust's
`str::find` for an ASCII needle (byte index of the first match). -/
def byteIndexOf (needle : List Nat) : List Nat → Option Nat
  | [] => if bytesStartWith needle [] then some 0 else none
  | a :: rest =>
    if bytesStartWith needle (a :: rest) then some 0
    else Option.map (· + 1) (byteIndexOf needle rest)

/-- Rust `str::trim_end_matches('\x1b')`: remove every trailing 0x1b. -/
def trimEndEsc (l : List Nat) : List Nat :=
  (l.reverse.dropWhile (fun b => b == 0x1b)).reverse

/-- The scanned announce marker "]7337;" (main.rs:345, 373). -/
def oscNeedle : List Nat := [0x5d, 0x37, 0x33, 0x33, 0x37, 0x3b]

/-- The required tty path lead "/dev/pts/" (main.rs:349, 377). -/
def devPtsBytes : List Nat := [0x2f, 0x64, 0x65, 0x76, 0x2f, 0x70, 0x74, 0x73, 0x2f]

/-- The tty-announce scan of one chunk (main.rs:345-349 and 373-377):
find "]7337;", take the text up to the next backslash byte 0x5c, strip
trailing ESC bytes, and accept it only if it starts with "/dev/pts/". -/
def scrapeTty (chunk : List Nat) : Option (List Nat) :=
  match byteIndexOf oscNeedle chunk with
  | none => none
  | some pos =>
    match byteIndexOf [0x5c] (chunk.drop (pos + 6)) with
    | none => none
    | some fin =>
      if bytesStartWith devPtsBytes (trimEndEsc ((chunk.drop (pos + 6)).take fin)) then
        some (trimEndEsc ((chunk.drop (pos + 6)).take fin))
      else none

/-- State threaded through the sender task: the per-connection
`tty_detected` latch, the process-wide `client_tty` registry
(`state.client_tty`), and the per-connection observation
(`connection_tty`). -/
structure PumpSt where
  ttyDetected : Bool
  globalTty : Option (List Nat)
  connTty : Option (List Nat)
deriving DecidableEq

/-- One scraping step of the sender task (main.rs:343-361 / 371-389).
`u chunk` models `std::str::from_utf8(&bytes).is_ok()`.  On a successful
scrape BOTH the global registry and the per-connection slot are
assigned `Some tty` (main.rs:350-355) and `tty_detected` latches true. -/
def scrapeStep (u : List Nat → Bool) (st : PumpSt) (chunk : List Nat) : PumpSt :=
  if st.ttyDetected then st
  else if u chunk then
    match scrapeTty chunk with
    | some tty => { ttyDetected := true, globalTty := some tty, connTty := some tty }
    | none => st
  else st

/-- Control position inside the sender task loop: `outer` is blocked on
`output_rx.recv()` (main.rs:340), `inner` is inside the batching
`select!` loop (main.rs:365-410). -/
inductive PumpMode
  | outer
  | inner
deriving DecidableEq

/-- One scheduling event observed by the sender task: a channel receive
(`some chunk` = a chunk, `none` = channel closed), or the 4 ms deadline
firing.  Real time is abstracted into the order of these events. -/
inductive PumpEv
  | recv (c : Option (List Nat))
  | timeout
deriving DecidableEq

/-- The sender task of handle_terminal (main.rs:335-433), as a function
from the event schedule to the list of emitted binary frames.  Faithful
to the source: a chunk is first scanned (state update only) and then
appended verbatim to the buffer; the inner loop breaks and emits when
`buffer.len() > 32768` or on the deadline; a closed channel flushes any
non-empty residual buffer and ends the task; every emitted frame is
`mkFrame buffer` and emptiness is checked before emitting.  WebSocket
sends are modelled as succeeding; a `timeout` event at the outer
position cannot occur in the real task (no timer is armed there) and is
consumed with no effect. -/
def pumpRun (u : List Nat → Bool) :
    PumpMode → List PumpEv → PumpSt → List Nat → List (List Nat)
  | _, [], _, _ => []
  | PumpMode.outer, PumpEv.recv none :: _, _, buf =>
    if buf = [] then [] else [mkFrame buf]
  | PumpMode.outer, PumpEv.recv (some c) :: rest, st, buf =>
    pumpRun u PumpMode.inner rest (scrapeStep u st c) (buf ++ c)
  | PumpMode.outer, PumpEv.timeout :: rest, st, buf =>
    pumpRun u PumpMode.outer rest st buf
  | PumpMode.inner, PumpEv.recv none :: _, _, buf =>
    if buf = [] then [] else [mkFrame buf]
  | PumpMode.inner, PumpEv.recv (some c) :: rest, st, buf =>
    if 32768 < (buf ++ c).length then
      if buf ++ c = [] then pumpRun u PumpMode.outer rest (scrapeStep u st c) (buf ++ c)
      else mkFrame (buf ++ c) :: pumpRun u PumpMode.outer rest (scrapeStep u st c) []
    else pumpRun u PumpMode.inner rest (scrapeStep u st c) (buf ++ c)
  | PumpMode.inner, PumpEv.timeout :: rest, st, buf =>
    if buf = [] then pumpRun u PumpMode.outer rest st buf
    else mkFrame buf :: pumpRun u PumpMode.outer rest st []

/-- Concatenation of emitted frame payloads, each stripped of its
leading opcode byte. -/
def stripConcat : List (List Nat) → List Nat
  | [] => []
  | f :: fs => f.drop 1 ++ stripConcat fs

/-- Concatenation, in order, of the chunks delivered by the events. -/
def chunksConcat : List PumpEv → List Nat
  | [] => []
  | PumpEv.recv (some c) :: rest => c ++ chunksConcat rest
  | _ :: rest => chunksConcat rest

/-- ASCII bytes of a string literal. -/
def strBytes (s : String) : List Nat := s.data.map Char.toNat

/-- The diagnostic frame sent when opening the PTY fails (main.rs:238-242):
the bytes of `"\x30Error: Failed to open PTY: {e}\r\n"`. -/
def openPtyErrorFrame (e : List Nat) : List Nat :=
  0x30 :: (strBytes "Error: Failed to open PTY: " ++ e ++ [13, 10])

/-- The diagnostic frame sent when spawning the shell fails
(main.rs:257-261): the bytes of `"\x30Error: Failed to spawn shell: {e}\r\n"`. -/
def spawnErrorFrame (e : List Nat) : List Nat :=
  0x30 :: (strBytes "Error: Failed to spawn shell: " ++ e ++ [13, 10])

/-- Outcome of the PTY setup phase of handle_terminal (main.rs:228-283). -/
inductive SetupOutcome
  | ok
  | openErr (e : List Nat)
  | spawnErr (e : List Nat)
  | cloneReaderErr (e : List Nat)
  | takeWriterErr (e : List Nat)
deriving DecidableEq

/-- Frames sent to the client during the setup phase, per outcome
(main.rs:229-283): a diagnostic frame on open failure (main.rs:236-244)
and on spawn failure (main.rs:255-264); the reader-clone failure
(main.rs:270-276) and writer-take failure (main.rs:277-283) paths log
and `return` without sending anything. -/
def setupFrames : SetupOutcome → List (List Nat)
  | SetupOutcome.ok => []
  | SetupOutcome.openErr e => [openPtyErrorFrame e]
  | SetupOutcome.spawnErr e => [spawnErrorFrame e]
  | SetupOutcome.cloneReaderErr _ => []
  | SetupOutcome.takeWriterErr _ => []

/-- The fields of a decoded InitMessage (main.rs:651-659): `columns` and
`rows` are u32 values (natural numbers below 2^32). -/
structure InitMessage where
  columns : Nat
  rows : Nat
deriving DecidableEq

/-- A WebSocket message as classified by parse_init_message
(main.rs:547-552): text carries its bytes, binary its data, and every
other message kind is `other`. -/
inductive WsMsg
  | text (bytes : List Nat)
  | binary (bytes : List Nat)
  | other
deriving DecidableEq

/-- parse_init_message (main.rs:547-560).  `dec` models the composition
of `std::str::from_utf8` and `serde_json::from_str::<InitMessage>`
(`none` = invalid UTF-8 or JSON decode failure).  On success the result
is `(columns.max(1) as u16, rows.max(1) as u16)`, i.e. clamp in 32 bits
then truncate modulo 2^16; every failure path yields (80, 24). -/
def parse_init_message (dec : List Nat → Option InitMessage) : WsMsg → Nat × Nat
  | WsMsg.text b =>
    match dec b with
    | some init => ((max init.columns 1) % 65536, (max init.rows 1) % 65536)
    | none => (80, 24)
  | WsMsg.binary b =>
    match dec b with
    | some init => ((max init.columns 1) % 65536, (max init.rows 1) % 65536)
    | none => (80, 24)
  | WsMsg.other => (80, 24)

/-- An inbound WebSocket message as seen by the receiver task
(main.rs:441-507). -/
inductive ClientMsg
  | binary (data : List Nat)
  | text (bytes : List Nat)
  | close
  | other
deriving DecidableEq

/-- State mutated by the receiver task: the sequence of PTY write
attempts (payload together with the outcome the writer returned, `true`
= the write errored), the last size applied to the PTY master as
(columns, rows), and the flow-control flag. -/
structure RouterSt where
  writes : List (List Nat × Bool)
  size : Option (Nat × Nat)
  paused : Bool
deriving DecidableEq

/-- One iteration of the receiver task loop (main.rs:441-507).  `dR`
models UTF-8 decoding plus `serde_json::from_str::<ResizeMessage>`,
yielding (columns, rows); `wErr i` is the outcome of the i-th PTY write
(`true` = error).  Faithful to the source: the results of `write_all`
and `flush` are discarded (`let _ =`, main.rs:454-455), so the outcome
is recorded but never branches; malformed resize payloads and unknown
opcodes are dropped; `none` means the loop breaks (Close frame). -/
def routerStep (dR : List Nat → Option (Nat × Nat)) (wErr : Nat → Bool)
    (st : RouterSt) : ClientMsg → Option RouterSt
  | ClientMsg.binary d =>
    match d with
    | [] => some st
    | b :: payload =>
      if b = 0x30 then
        some { st with writes := st.writes ++ [(payload, wErr st.writes.length)] }
      else if b = 0x31 then
        match dR payload with
        | some cr => some { st with size := some cr }
        | none => some st
      else if b = 0x32 then some { st with paused := true }
      else if b = 0x33 then some { st with paused := false }
      else some st
  | ClientMsg.text b =>
    match dR b with
    | some cr => some { st with size := some cr }
    | none => some st
  | ClientMsg.close => none
  | ClientMsg.other => some st

/-- The receiver task run to completion over a message sequence
(main.rs:441-509): fold `routerStep`, stopping at the first Close. -/
def routerRun (dR : List Nat → Option (Nat × Nat)) (wErr : Nat → Bool) :
    List ClientMsg → RouterSt → RouterSt
  | [], st => st
  | m :: rest, st =>
    match routerStep dR wErr st m with
    | none => st
    | some st2 => routerRun dR wErr rest st2

/-- Number of inbound messages the receiver task consumes before it
stops. -/
def routerProcessed (dR : List Nat → Option (Nat × Nat)) (wErr : Nat → Bool) :
    List ClientMsg → RouterSt → Nat
  | [], _ => 0
  | m :: rest, st =>
    match routerStep dR wErr st m with
    | none => 1
    | some st2 => 1 + routerProcessed dR wErr rest st2

/-- Specification-side count: the router consumes messages up to and
including the first Close, or the whole stream if none occurs. -/
def routerStopSpec : List ClientMsg → Nat
  | [] => 0
  | ClientMsg.close :: _ => 1
  | _ :: rest => 1 + routerStopSpec rest

/-- The flow-control wait block of the PTY reader thread
(main.rs:301-312), returning the value of the `paused` flag at the
moment the block exits (the lock is still held there).  `entry` is the
flag when the lock is first taken; `wake` is the flag value when
`wait_timeout` returns (false if a resume landed, true on a 2 s timeout
or a wakeup with the flag still set) — in the latter case the code
forces the flag to false before continuing to the read. -/
def wait_if_paused (entry wake : Bool) : Bool :=
  if entry then (if wake then false else wake) else entry

/-- The registry sweep at session teardown (main.rs:537-541): the global
`client_tty` value is set to None iff it currently equals this
connection's `cleanup_tty` observation, else left untouched. -/
def teardownSweep (pre cleanup : Option (List Nat)) : Option (List Nat) :=
  if pre = cleanup then none else pre

/-- Bytes of the announce chunk "]7337;/dev/pts/2\x1b\x5c". -/
def annChunk : List Nat :=
  [0x5d, 0x37, 0x33, 0x33, 0x37, 0x3b,
   0x2f, 0x64, 0x65, 0x76, 0x2f, 0x70, 0x74, 0x73, 0x2f, 0x32,
   0x1b, 0x5c]

/-- Bytes of "/dev/pts/1". -/
def pts1 : List Nat := [0x2f, 0x64, 0x65, 0x76, 0x2f, 0x70, 0x74, 0x73, 0x2f, 0x31]

/-- Bytes of "/dev/pts/2". -/
def pts2 : List Nat := [0x2f, 0x64, 0x65, 0x76, 0x2f, 0x70, 0x74, 0x73, 0x2f, 0x32]

/-- A 32767-byte chunk of the letter A. -/
def bigA : List Nat := List.replicate 32767 65

/-- A 32768-byte chunk of the letter A. -/
def bigB : List Nat := List.replicate 32768 65

/-- Event schedule in which the buffer reaches exactly 32768 bytes and a
further chunk arrives before the deadline. -/
def capTrace : List PumpEv :=
  [PumpEv.recv (some bigA), PumpEv.recv (some [66]), PumpEv.recv (some [67]),
   PumpEv.recv none]

/-- A small schedule of two chunks separated by a deadline. -/
def fwdTrace : List PumpEv :=
  [PumpEv.recv (some [104, 105]), PumpEv.timeout, PumpEv.recv (some [33])]

/-- C8: whenever the PTY reader thread exits its flow-control wait block
and proceeds to read from the PTY master, the paused flag is false: if
the flag was set on entry, the block waits, and a wakeup that still
finds the flag set (in particular the 2-second timeout) forces it to
false before the read. -/
theorem wait_if_paused_always_false :
    ∀ (entry wake : Bool), wait_if_paused entry wake = false := by
  decide

/-- Counterexample to C7: a teardown whose pre-sweep registry value is
None while the departing connection observed "/dev/pts/2" leaves the
registry equal to None even though the pre-sweep value differs from the
observation, refuting the claimed "equals None if and only if". -/
theorem sweep_none_with_differing_observation :
    teardownSweep none (some pts2) = none ∧ (none : Option (List Nat)) ≠ some pts2 := by
  constructor
  · decide
  · decide

/-- C7 (amended): after the teardown sweep the registry equals None iff
the pre-sweep value equals the departing connection's observation OR the
pre-sweep value was already None; when the two differ the registry value
is left unchanged. -/
theorem teardown_sweep_characterization (pre obs : Option (List Nat)) :
    (teardownSweep pre obs = none ↔ (pre = obs ∨ pre = none)) ∧
    (pre ≠ obs → teardownSweep pre obs = pre) := by
  unfold teardownSweep
  by_cases h : pre = obs
  · subst h
    simp
  · simp [h]

theorem teardown_sweep_characterization_witness :
    (teardownSweep (some pts1) (some pts1) = none ↔
      ((some pts1 : Option (List Nat)) = some pts1 ∨ (some pts1 : Option (List Nat)) = none)) ∧
    ((some pts1 : Option (List Nat)) ≠ some pts1 → teardownSweep (some pts1) (some pts1) = some pts1) :=
  teardown_sweep_characterization (some pts1) (some pts1)

/-- Counterexample to C6: with the registry already holding
Some "/dev/pts/1", scraping an announce of "/dev/pts/2" on a connection
that has not yet latched `tty_detected` REPLACES the registry value with
Some "/dev/pts/2"; the claim said a differing existing value is never
replaced. -/
theorem publish_overwrites_other_path :
    (scrapeStep (fun _ => true) ⟨false, some pts1, none⟩ annChunk).globalTty = some pts2 ∧
    some pts1 ≠ some pts2 := by
  constructor
  · decide
  · decide

/-- C6 (amended): the publish is unconditional: on the first successful
scrape of a connection (latch still false, chunk valid UTF-8, announce
present) both the per-connection slot and the global registry are
assigned the observed path, overwriting any current registry value,
including Some(other) for a different path. -/
theorem scrape_publish_unconditional (u : List Nat → Bool) (st : PumpSt)
    (chunk tty : List Nat) (h1 : st.ttyDetected = false) (h2 : u chunk = true)
    (h3 : scrapeTty chunk = some tty) :
    scrapeStep u st chunk =
      { ttyDetected := true, globalTty := some tty, connTty := some tty } := by
  simp [scrapeStep, h1, h2, h3]

theorem scrape_publish_unconditional_witness :
    scrapeStep (fun _ => true) ⟨false, some pts1, none⟩ annChunk =
      { ttyDetected := true, globalTty := some pts2, connTty := some pts2 } :=
  scrape_publish_unconditional (fun _ => true) ⟨false, some pts1, none⟩ annChunk pts2
    rfl rfl (by decide)

/-- Counterexample to C4: a reader-clone failure (and likewise a
writer-take failure) during session setup sends the client no frame at
all, refuting the claim that every PTY-related setup failure produces a
single diagnostic frame. -/
theorem clone_failure_sends_no_frame :
    setupFrames (SetupOutcome.cloneReaderErr (strBytes "boom")) = [] ∧
    setupFrames (SetupOutcome.takeWriterErr (strBytes "boom")) = [] :=
  ⟨rfl, rfl⟩

/-- C4 (amended): PTY open failure and shell spawn failure each send
exactly one diagnostic frame beginning with opcode 0x30 before the
session ends; reader-clone and writer-take failures end the session
without sending any frame. -/
theorem setup_failure_frames (e : List Nat) :
    setupFrames (SetupOutcome.openErr e) = [openPtyErrorFrame e] ∧
    setupFrames (SetupOutcome.spawnErr e) = [spawnErrorFrame e] ∧
    (openPtyErrorFrame e).head? = some 0x30 ∧
    (spawnErrorFrame e).head? = some 0x30 ∧
    setupFrames (SetupOutcome.cloneReaderErr e) = [] ∧
    setupFrames (SetupOutcome.takeWriterErr e) = [] ∧
    setupFrames SetupOutcome.ok = [] := by
  simp [setupFrames, openPtyErrorFrame, spawnErrorFrame]

/-- Counterexample to C3: a well-formed InitMessage with the u32 value
columns = 65536 yields a 16-bit columns value of 0 after
`columns.max(1) as u16` (the clamp happens before the truncation), so
the parsed dimensions are not always at least 1. -/
theorem init_dims_zero_at_65536 :
    parse_init_message (fun _ => some (InitMessage.mk 65536 24)) (WsMsg.text [123]) = (0, 24) ∧
    ¬ 1 ≤ (parse_init_message (fun _ => some (InitMessage.mk 65536 24)) (WsMsg.text [123])).1 := by
  constructor
  · decide
  · decide

/-- C3 (amended): parsing the first message clamps columns and rows to
at least 1 as 32-bit values and then truncates modulo 2^16, so the
16-bit results equal (max columns 1) mod 65536 and (max rows 1) mod
65536; they are at least 1 whenever the decoded u32 values are at most
65535 (a positive multiple of 65536 yields 0).  Any message whose bytes
fail UTF-8 or JSON decoding, and any non-text non-binary message,
yields exactly (80, 24). -/
theorem parse_init_clamp_truncate (dec dec2 : List Nat → Option InitMessage)
    (b b2 : List Nat) (init : InitMessage) (h : dec b = some init)
    (hc : init.columns ≤ 65535) (hr : init.rows ≤ 65535) (h2 : dec2 b2 = none) :
    parse_init_message dec (WsMsg.text b) =
      ((max init.columns 1) % 65536, (max init.rows 1) % 65536) ∧
    parse_init_message dec (WsMsg.binary b) =
      ((max init.columns 1) % 65536, (max init.rows 1) % 65536) ∧
    1 ≤ (parse_init_message dec (WsMsg.text b)).1 ∧
    1 ≤ (parse_init_message dec (WsMsg.text b)).2 ∧
    parse_init_message dec2 (WsMsg.text b2) = (80, 24) ∧
    parse_init_message dec2 (WsMsg.binary b2) = (80, 24) ∧
    parse_init_message dec WsMsg.other = (80, 24) := by
  refine ⟨by simp [parse_init_message, h], by simp [parse_init_message, h], ?_, ?_,
    by simp [parse_init_message, h2], by simp [parse_init_message, h2], rfl⟩
  · simp [parse_init_message, h]
    omega
  · simp [parse_init_message, h]
    omega

theorem parse_init_clamp_truncate_witness :
    parse_init_message (fun _ => some (InitMessage.mk 80 24)) (WsMsg.text []) =
      ((max 80 1) % 65536, (max 24 1) % 65536) ∧
    parse_init_message (fun _ => some (InitMessage.mk 80 24)) (WsMsg.binary []) =
      ((max 80 1) % 65536, (max 24 1) % 65536) ∧
    1 ≤ (parse_init_message (fun _ => some (InitMessage.mk 80 24)) (WsMsg.text [])).1 ∧
    1 ≤ (parse_init_message (fun _ => some (InitMessage.mk 80 24)) (WsMsg.text [])).2 ∧
    parse_init_message (fun _ => none) (WsMsg.text [34]) = (80, 24) ∧
    parse_init_message (fun _ => none) (WsMsg.binary [34]) = (80, 24) ∧
    parse_init_message (fun _ => some (InitMessage.mk 80 24)) WsMsg.other = (80, 24) :=
  parse_init_clamp_truncate (fun _ => some (InitMessage.mk 80 24)) (fun _ => none)
    [] [34] (InitMessage.mk 80 24) rfl (by decide) (by decide) rfl

/-- C10: a decoded resize message — binary with opcode 0x31 or a text
frame — resizes the PTY master to exactly the decoded columns and rows,
with no clamping: the dimensions are applied verbatim, zero included. -/
theorem resize_applies_exact_dims (dR : List Nat → Option (Nat × Nat))
    (wErr : Nat → Bool) (st : RouterSt) (payload : List Nat) (c r : Nat)
    (h : dR payload = some (c, r)) :
    routerStep dR wErr st (ClientMsg.binary (0x31 :: payload)) =
      some { st with size := some (c, r) } ∧
    routerStep dR wErr st (ClientMsg.text payload) =
      some { st with size := some (c, r) } := by
  constructor
  · simp [routerStep, h]
  · simp [routerStep, h]

theorem resize_applies_exact_dims_witness :
    routerStep (fun _ => some (0, 0)) (fun _ => true) ⟨[], none, false⟩
      (ClientMsg.binary (0x31 :: [])) =
      some { (⟨[], none, false⟩ : RouterSt) with size := some (0, 0) } ∧
    routerStep (fun _ => some (0, 0)) (fun _ => true) ⟨[], none, false⟩
      (ClientMsg.text []) =
      some { (⟨[], none, false⟩ : RouterSt) with size := some (0, 0) } :=
  resize_applies_exact_dims (fun _ => some (0, 0)) (fun _ => true) ⟨[], none, false⟩
    [] 0 0 rfl

/-- Helper: every inbound message other than Close produces a successor
state; no opcode, malformed payload, or write outcome makes the
receiver loop stop. -/
theorem routerStep_ne_close_some (dR : List Nat → Option (Nat × Nat))
    (wErr : Nat → Bool) (st : RouterSt) (m : ClientMsg)
    (hm : m ≠ ClientMsg.close) :
    ∃ st2, routerStep dR wErr st m = some st2 := by
  cases m with
  | close => exact absurd rfl hm
  | other => exact ⟨st, rfl⟩
  | text b =>
    cases hd : dR b with
    | none => exact ⟨st, by simp [routerStep, hd]⟩
    | some cr => exact ⟨{ st with size := some cr }, by simp [routerStep, hd]⟩
  | binary d =>
    cases d with
    | nil => exact ⟨st, rfl⟩
    | cons b payload =>
      by_cases h0 : b = 0x30
      · exact ⟨{ st with writes := st.writes ++ [(payload, wErr st.writes.length)] },
          by simp [routerStep, h0]⟩
      · by_cases h1 : b = 0x31
        · cases hd : dR payload with
          | none => exact ⟨st, by simp [routerStep, h0, h1, hd]⟩
          | some cr => exact ⟨{ st with size := some cr }, by simp [routerStep, h0, h1, hd]⟩
        · by_cases h2 : b = 0x32
          · exact ⟨{ st with paused := true }, by simp [routerStep, h0, h1, h2]⟩
          · by_cases h3 : b = 0x33
            · exact ⟨{ st with paused := false }, by simp [routerStep, h0, h1, h2, h3]⟩
            · exact ⟨st, by simp [routerStep, h0, h1, h2, h3]⟩

/-- Counterexample to C5: with a writer whose every attempt errors
(wErr constantly true), a trace of two input frames 0x30 'a' and
0x30 'b' is processed in full: the write of 'a' at index 0 errors, yet
the router still consumes and writes the second frame, so a write error
does not terminate it. -/
theorem router_survives_write_error :
    (fun _ => true : Nat → Bool) 0 = true ∧
    routerProcessed (fun _ => none) (fun _ => true)
      [ClientMsg.binary [0x30, 97], ClientMsg.binary [0x30, 98]] ⟨[], none, false⟩ = 2 ∧
    (routerRun (fun _ => none) (fun _ => true)
      [ClientMsg.binary [0x30, 97], ClientMsg.binary [0x30, 98]] ⟨[], none, false⟩).writes =
      [([97], true), ([98], true)] := by
  refine ⟨rfl, by decide, by decide⟩

/-- C5 (amended): the receiver task discards the PTY write result
(`let _ = writer.write_all(..)`), so a write error does not terminate
it; the number of messages it consumes depends neither on the write
outcomes nor on the decoded payloads, and equals the position of the
first Close message (or the whole stream when none occurs). -/
theorem router_stops_only_on_close (dR : List Nat → Option (Nat × Nat))
    (wErr : Nat → Bool) (msgs : List ClientMsg) :
    ∀ st, routerProcessed dR wErr msgs st = routerStopSpec msgs := by
  induction msgs with
  | nil => intro st; rfl
  | cons m rest ih =>
    intro st
    by_cases hm : m = ClientMsg.close
    · subst hm
      simp [routerProcessed, routerStep, routerStopSpec]
    · obtain ⟨st2, hst⟩ := routerStep_ne_close_some dR wErr st m hm
      have hp : routerProcessed dR wErr (m :: rest) st =
          1 + routerProcessed dR wErr rest st2 := by
        simp [routerProcessed, hst]
      rw [hp, ih st2]
      cases m with
      | close => exact absurd rfl hm
      | binary d => simp [routerStopSpec]
      | text b => simp [routerStopSpec]
      | other => simp [routerStopSpec]

/-- Helper: every frame the sender task emits is `mkFrame` of some
buffer, hence starts with the opcode byte 0x30. -/
theorem pump_frames_head (u : List Nat → Bool) (es : List PumpEv) :
    ∀ (mode : PumpMode) (st : PumpSt) (buf f : List Nat),
      f ∈ pumpRun u mode es st buf → f.head? = some 0x30 := by
  induction es with
  | nil =>
    intro mode st buf f hf
    simp [pumpRun] at hf
  | cons ev rest ih =>
    intro mode st buf f hf
    cases ev with
    | recv c =>
      cases c with
      | none =>
        cases mode with
        | outer =>
          by_cases hb : buf = []
          · simp [pumpRun, hb] at hf
          · simp only [pumpRun, if_neg hb, List.mem_singleton] at hf
            simp [hf, mkFrame]
        | inner =>
          by_cases hb : buf = []
          · simp [pumpRun, hb] at hf
          · simp only [pumpRun, if_neg hb, List.mem_singleton] at hf
            simp [hf, mkFrame]
      | some ch =>
        cases mode with
        | outer =>
          simp only [pumpRun] at hf
          exact ih PumpMode.inner (scrapeStep u st ch) (buf ++ ch) f hf
        | inner =>
          by_cases hlen : 32768 < (buf ++ ch).length
          · by_cases hne : buf ++ ch = []
            · simp only [pumpRun, if_pos hlen, if_pos hne] at hf
              exact ih PumpMode.outer (scrapeStep u st ch) (buf ++ ch) f hf
            · simp only [pumpRun, if_pos hlen, if_neg hne, List.mem_cons] at hf
              rcases hf with h | h
              · simp [h, mkFrame]
              · exact ih PumpMode.outer (scrapeStep u st ch) [] f h
          · simp only [pumpRun, if_neg hlen] at hf
            exact ih PumpMode.inner (scrapeStep u st ch) (buf ++ ch) f hf
    | timeout =>
      cases mode with
      | outer =>
        simp only [pumpRun] at hf
        exact ih PumpMode.outer st buf f hf
      | inner =>
        by_cases hb : buf = []
        · simp only [pumpRun, if_pos hb] at hf
          exact ih PumpMode.outer st buf f hf
        · simp only [pumpRun, if_neg hb, List.mem_cons] at hf
          rcases hf with h | h
          · simp [h, mkFrame]
          · exact ih PumpMode.outer st [] f h

/-- C2: every binary frame the server sends — frames emitted by the
sender task on any schedule and the diagnostic frames of the PTY setup
phase — is non-empty and begins with the opcode byte 0x30. -/
theorem outbound_frames_nonempty_opcode (u : List Nat → Bool)
    (mode : PumpMode) (es : List PumpEv) (st : PumpSt) (buf : List Nat)
    (o : SetupOutcome) (f g : List Nat)
    (hf : f ∈ pumpRun u mode es st buf) (hg : g ∈ setupFrames o) :
    (f ≠ [] ∧ f.head? = some 0x30) ∧ (g ≠ [] ∧ g.head? = some 0x30) := by
  have h1 := pump_frames_head u es mode st buf f hf
  have hf1 : f ≠ [] := by
    intro he
    rw [he] at h1
    simp at h1
  refine ⟨⟨hf1, h1⟩, ?_⟩
  cases o with
  | ok => simp [setupFrames] at hg
  | openErr e =>
    simp only [setupFrames, List.mem_singleton] at hg
    simp [hg, openPtyErrorFrame]
  | spawnErr e =>
    simp only [setupFrames, List.mem_singleton] at hg
    simp [hg, spawnErrorFrame]
  | cloneReaderErr e => simp [setupFrames] at hg
  | takeWriterErr e => simp [setupFrames] at hg

theorem outbound_frames_nonempty_opcode_witness :
    (([0x30, 104] : List Nat) ≠ [] ∧ ([0x30, 104] : List Nat).head? = some 0x30) ∧
    (openPtyErrorFrame [] ≠ [] ∧ (openPtyErrorFrame []).head? = some 0x30) :=
  outbound_frames_nonempty_opcode (fun _ => true) PumpMode.outer
    [PumpEv.recv (some [104]), PumpEv.recv none] ⟨true, none, none⟩ []
    (SetupOutcome.openErr []) [0x30, 104] (openPtyErrorFrame [])
    (by decide) (by simp [setupFrames])

/-- C1: for every sequence of chunks delivered on the output channel
(any schedule of receives and deadlines, ending when the channel
closes), the concatenation of the emitted frame payloads, each stripped
of its leading opcode byte, equals the pending buffer followed by the
concatenation of the chunks in order; the tty-announce scraping (any
UTF-8 oracle `u`, any scrape state) never mutates or drops a forwarded
byte. -/
theorem pump_forwards_bytes_exactly (u : List Nat → Bool) (es : List PumpEv)
    (hcf : ∀ e ∈ es, e ≠ PumpEv.recv none) (mode : PumpMode) (st : PumpSt)
    (buf : List Nat) :
    stripConcat (pumpRun u mode (es ++ [PumpEv.recv none]) st buf) =
      buf ++ chunksConcat es := by
  revert hcf
  induction es generalizing mode st buf with
  | nil =>
    intro _
    cases mode with
    | outer =>
      by_cases hb : buf = [] <;>
        simp [pumpRun, stripConcat, chunksConcat, mkFrame, hb]
    | inner =>
      by_cases hb : buf = [] <;>
        simp [pumpRun, stripConcat, chunksConcat, mkFrame, hb]
  | cons ev rest ih =>
    intro hcf
    have hev : ev ≠ PumpEv.recv none := hcf ev (List.mem_cons_self ev rest)
    have hrest : ∀ e ∈ rest, e ≠ PumpEv.recv none :=
      fun e he => hcf e (List.mem_cons_of_mem ev he)
    cases ev with
    | timeout =>
      cases mode with
      | outer =>
        simp only [List.cons_append, pumpRun, List.append_eq]
        rw [ih PumpMode.outer st buf hrest]
        simp [chunksConcat]
      | inner =>
        by_cases hb : buf = []
        · simp only [List.cons_append, pumpRun, List.append_eq, if_pos hb]
          rw [ih PumpMode.outer st buf hrest]
          simp [chunksConcat]
        · simp only [List.cons_append, pumpRun, List.append_eq, if_neg hb, stripConcat, mkFrame,
            List.drop_succ_cons, List.drop_zero]
          rw [ih PumpMode.outer st [] hrest]
          simp [chunksConcat]
    | recv c =>
      cases c with
      | none => exact absurd rfl hev
      | some ch =>
        cases mode with
        | outer =>
          simp only [List.cons_append, pumpRun, List.append_eq]
          rw [ih PumpMode.inner (scrapeStep u st ch) (buf ++ ch) hrest]
          simp [chunksConcat]
        | inner =>
          by_cases hlen : 32768 < (buf ++ ch).length
          · have hne : ¬ (buf ++ ch = []) := by
              intro he
              rw [he] at hlen
              simp at hlen
            simp only [List.cons_append, pumpRun, List.append_eq, if_pos hlen, if_neg hne,
              stripConcat, mkFrame, List.drop_succ_cons, List.drop_zero]
            rw [ih PumpMode.outer (scrapeStep u st ch) [] hrest]
            simp [chunksConcat]
          · simp only [List.cons_append, pumpRun, List.append_eq, if_neg hlen]
            rw [ih PumpMode.inner (scrapeStep u st ch) (buf ++ ch) hrest]
            simp [chunksConcat]

theorem pump_forwards_bytes_exactly_witness :
    (∀ e ∈ fwdTrace, e ≠ PumpEv.recv none) ∧
    stripConcat (pumpRun (fun _ => true) PumpMode.outer
      (fwdTrace ++ [PumpEv.recv none]) ⟨false, none, none⟩ []) =
      [] ++ chunksConcat fwdTrace :=
  ⟨by decide, pump_forwards_bytes_exactly (fun _ => true) fwdTrace (by decide)
    PumpMode.outer ⟨false, none, none⟩ []⟩


/-- Counterexample to C9: on a schedule whose buffer reaches exactly
32768 bytes (a 32767-byte chunk, then a 1-byte chunk) and then receives
one further 1-byte chunk before any deadline, the sender task emits a
single frame of 32770 bytes (opcode plus 32769 payload bytes): the
inner stage did NOT exit and emit when the buffer reached 32768,
because the source condition is the strict `buffer.len() > 32768`.  Had
the claim held, the first emitted frame would have carried exactly
32768 payload bytes, giving frame lengths [32769, 2]. -/
theorem no_emit_at_exactly_32768 :
    (bigA ++ [66]).length = 32768 ∧
    (pumpRun (fun _ => true) PumpMode.outer capTrace ⟨true, none, none⟩ []).map
      List.length = [32770] := by
  have hA : bigA.length = 32767 := by
    rw [bigA]
    exact List.length_replicate 32767 65
  have c1 : (bigA ++ [66]).length = 32768 := by
    rw [List.length_append, hA, List.length_singleton]
  have c2 : ((bigA ++ [66]) ++ [67]).length = 32769 := by
    rw [List.length_append, c1, List.length_singleton]
  have hc1 : ¬ (32768 < (bigA ++ [66]).length) := by
    rw [c1]
    decide
  have hc2 : 32768 < ((bigA ++ [66]) ++ [67]).length := by
    rw [c2]
    decide
  have hne2 : ((bigA ++ [66]) ++ [67]) ≠ [] := by
    intro h
    rw [h] at c2
    simp at c2
  refine ⟨c1, ?_⟩
  simp only [capTrace, pumpRun, List.nil_append]
  rw [if_neg hc1, if_pos hc2, if_neg hne2]
  simp only [if_true]
  rw [List.map_cons, List.map_nil]
  have c3 : (mkFrame ((bigA ++ [66]) ++ [67])).length = 32770 := by
    rw [mkFrame, List.length_cons, c2]
  rw [c3]

/-- C9 (amended): in the inner batching loop, appending a chunk that
makes the buffer EXCEED 32 KiB (length strictly greater than 32768)
exits the inner stage and triggers an immediate frame emission carrying
the whole buffer, regardless of the remaining schedule — no 4 ms
deadline event is consumed first; reaching exactly 32768 does not
trigger this (see the counterexample). -/
theorem emit_immediate_above_32768 (u : List Nat → Bool) (c : List Nat)
    (rest : List PumpEv) (st : PumpSt) (buf : List Nat)
    (h : 32768 < (buf ++ c).length) :
    pumpRun u PumpMode.inner (PumpEv.recv (some c) :: rest) st buf =
      mkFrame (buf ++ c) :: pumpRun u PumpMode.outer rest (scrapeStep u st c) [] := by
  have hne : ¬ (buf ++ c = []) := by
    intro he
    rw [he] at h
    simp at h
  simp only [pumpRun, if_pos h, if_neg hne]

theorem emit_immediate_above_32768_witness :
    32768 < (bigB ++ [66]).length ∧
    pumpRun (fun _ => true) PumpMode.inner [PumpEv.recv (some [66])]
      ⟨true, none, none⟩ bigB =
      mkFrame (bigB ++ [66]) ::
        pumpRun (fun _ => true) PumpMode.outer []
          (scrapeStep (fun _ => true) ⟨true, none, none⟩ [66]) [] :=
  ⟨by rw [List.length_append, bigB, List.length_replicate, List.length_singleton]; decide,
   emit_immediate_above_32768 (fun _ => true) [66] [] ⟨true, none, none⟩ bigB
     (by rw [List.length_append, bigB, List.length_replicate, List.length_singleton]; decide)⟩
